import Mathlib

/-!
Verification of the gcs-uploader repository: a shallow embedding of the
upload state machine (`Upload` in src/gcs.js), the chunk reader
(`Steamer` in steamer.js), the chunk PUT translation (`uploadChunk`),
and the transfer loop (`doUpload`), together with theorems settling the
specification claims.

Conventions of the embedding:
- JavaScript numbers that stay natural are `Nat`; the `Content-Range`
  endpoint arithmetic, which can go negative in JS, is `Int`.
- The value flowing through the `offset` parameters of `doUpload`,
  `Steamer.next` and the `progress` setter conflates `undefined`, the
  string sentinel `'*'` (`RESUME_OFFSET`), `NaN` (from `parseInt`) and a
  number; it is modelled by the inductive `JsOff`, with JS truthiness
  given by `jsTruthy`.
- The asynchronous recursion of `doUpload` is modelled as a fuel-indexed
  loop over a script of HTTP responses (one scripted response per issued
  chunk PUT); an empty script stands for a fetch whose promise never
  settles, which in JS simply leaves the loop pending.
- Signals delivered to an attached listener are recorded in `dev*`
  fields (for `progress`, tagged with the attachment generation so that
  deliveries to distinct successive listeners can be told apart);
  signals emitted with no listener attached land in the `q*` event
  queues, exactly as in the `eventQueue` object of the source.
-/

namespace GcsUploader

/-- The `offset` value space of the source: `undefined`, the
`RESUME_OFFSET` sentinel string `'*'`, `NaN` (a possible `parseInt`
result) or a number. -/
inductive JsOff where
  | undef
  | star
  | nan
  | num (n : Nat)
deriving DecidableEq

/-- JS truthiness of a `JsOff` value: `undefined`, `0` and `NaN` are
falsy; `'*'` (a non-empty string) and non-zero numbers are truthy. -/
def jsTruthy : JsOff → Bool
  | JsOff.undef => false
  | JsOff.star => true
  | JsOff.nan => false
  | JsOff.num n => n != 0

/-- The distinct error values thrown or constructed in src/gcs.js. -/
inductive ErrVal where
  | noFile
  | sessionError
  | jsonError
  | invalidRange
  | typeError
  | unexpected
deriving DecidableEq

/-- The string constants DONE / INPROGRESS / PAUSE / CANCEL of
src/gcs.js, used by the `currentState` getter. -/
inductive UState where
  | DONE
  | INPROGRESS
  | PAUSE
  | CANCEL
deriving DecidableEq

/-- One upload state object (the `Upload` constructor of src/gcs.js,
lines 60-152). The `q*` lists are the per-kind `eventQueue` arrays; the
`on*Set` flags record whether the corresponding callback setter has
run; the `dev*` fields log the calls made to the attached callbacks
(`devProgress` entries carry the attachment generation `progressGen` of
the listener that received them); the underscore fields are the fields
of the inner `state` object. -/
structure Upload where
  size : Nat
  contentType : String
  sessionUri : Option String
  qprogress : List Nat
  qerror : List ErrVal
  qdone : List Bool
  qcancel : List Bool
  qpause : List Bool
  onprogressSet : Bool
  onerrorSet : Bool
  ondoneSet : Bool
  oncancelSet : Bool
  onpauseSet : Bool
  progressGen : Nat
  devProgress : List (Nat × Nat)
  devError : List ErrVal
  devDone : Nat
  devCancel : Nat
  devPause : Nat
  _progress : Nat
  _error : Option ErrVal
  _done : Bool
  _cancel : Bool
  _pause : Bool
deriving DecidableEq

/-- A fresh `Upload` as built by `new Upload(size, contentType, ...)`:
empty queues, no callbacks, `_progress = 0`, all flags false. -/
def mkUpload (size : Nat) (contentType : String) : Upload :=
  { size := size
    contentType := contentType
    sessionUri := none
    qprogress := []
    qerror := []
    qdone := []
    qcancel := []
    qpause := []
    onprogressSet := false
    onerrorSet := false
    ondoneSet := false
    oncancelSet := false
    onpauseSet := false
    progressGen := 0
    devProgress := []
    devError := []
    devDone := 0
    devCancel := 0
    devPause := 0
    _progress := 0
    _error := none
    _done := false
    _cancel := false
    _pause := false }

/-- JS `arr[0] = a` on an event-queue array: overwrites index 0 and
keeps the (in the source always empty) tail. -/
def slot0 (l : List α) (a : α) : List α := a :: l.tail

/-- The `set progress(offset)` setter (src/gcs.js lines 84-98): falsy
offsets and the `'*'` sentinel are ignored; otherwise the offset is
queued when no `onprogress` callback is set, or delivered directly. -/
def Upload.setProgress (u : Upload) (offset : JsOff) : Upload :=
  match offset with
  | JsOff.undef => u
  | JsOff.star => u
  | JsOff.nan => u
  | JsOff.num 0 => u
  | JsOff.num (n + 1) =>
    if u.onprogressSet = false then
      { u with qprogress := u.qprogress ++ [n + 1] }
    else
      { u with _progress := n + 1
               devProgress := u.devProgress ++ [(u.progressGen, n + 1)] }

/-- The `set error(error)` setter (src/gcs.js lines 99-106). -/
def Upload.setError (u : Upload) (e : ErrVal) : Upload :=
  if u.onerrorSet = false then { u with qerror := u.qerror ++ [e] }
  else { u with _error := some e, devError := u.devError ++ [e] }

/-- The `set done(done)` setter (src/gcs.js lines 107-120): ignored for
falsy writes; otherwise sets `_done` and either writes `true` into slot
0 of the `ondone` queue or fires the callback. -/
def Upload.setDone (u : Upload) (d : Bool) : Upload :=
  if d = false then u
  else
    let u1 := { u with _done := true }
    if u1.ondoneSet = false then { u1 with qdone := slot0 u1.qdone true }
    else { u1 with devDone := u1.devDone + 1 }

/-- The `set cancel(cancel)` setter (src/gcs.js lines 121-134). -/
def Upload.setCancel (u : Upload) (c : Bool) : Upload :=
  if c = false then u
  else
    let u1 := { u with _cancel := c }
    if u1.oncancelSet = false then { u1 with qcancel := slot0 u1.qcancel c }
    else { u1 with devCancel := u1.devCancel + 1 }

/-- The `set pause(pause)` setter (src/gcs.js lines 135-150): always
records the written flag; with no callback the flag value (true or
false) is written into slot 0 of the `onpause` queue; with a callback,
falsy writes return silently and every truthy write fires the
callback. -/
def Upload.setPause (u : Upload) (p : Bool) : Upload :=
  let u1 := { u with _pause := p }
  if u1.onpauseSet = false then { u1 with qpause := slot0 u1.qpause p }
  else if p = false then u1
  else { u1 with devPause := u1.devPause + 1 }

/-- `upload.cancel()` (src/gcs.js lines 181-183). -/
def Upload.cancel (u : Upload) : Upload := u.setCancel true

/-- `upload.done()` (src/gcs.js lines 188-190). -/
def Upload.done (u : Upload) : Upload := u.setDone true

/-- `upload.pause()` (src/gcs.js lines 195-197). -/
def Upload.pause (u : Upload) : Upload := u.setPause true

/-- The `currentState` getter (src/gcs.js lines 214-228): precedence
DONE, CANCEL, PAUSE, INPROGRESS. -/
def Upload.currentState (u : Upload) : UState :=
  if u._done then UState.DONE
  else if u._cancel then UState.CANCEL
  else if u._pause then UState.PAUSE
  else UState.INPROGRESS

/-- The `set onprogress(cb)` setter (src/gcs.js lines 235-238): stores
the callback and drains the `onprogress` queue into it in FIFO order
(`clearEventQueue`, lines 47-51). A fresh attachment generation tags
the deliveries made to this listener. -/
def Upload.setOnprogress (u : Upload) : Upload :=
  let g := u.progressGen + 1
  { u with onprogressSet := true
           progressGen := g
           devProgress := u.devProgress ++ u.qprogress.map (fun v => (g, v))
           qprogress := [] }

/-- The `set onerror(cb)` setter (src/gcs.js lines 245-248). -/
def Upload.setOnerror (u : Upload) : Upload :=
  { u with onerrorSet := true
           devError := u.devError ++ u.qerror
           qerror := [] }

/-- The `set ondone(cb)` setter (src/gcs.js lines 255-258); each
drained queue entry is one callback invocation. -/
def Upload.setOndone (u : Upload) : Upload :=
  { u with ondoneSet := true
           devDone := u.devDone + u.qdone.length
           qdone := [] }

/-- The `set oncancel(cb)` setter (src/gcs.js lines 265-268). -/
def Upload.setOncancel (u : Upload) : Upload :=
  { u with oncancelSet := true
           devCancel := u.devCancel + u.qcancel.length
           qcancel := [] }

/-- The `set onpause(cb)` setter (src/gcs.js lines 275-278). -/
def Upload.setOnpause (u : Upload) : Upload :=
  { u with onpauseSet := true
           devPause := u.devPause + u.qpause.length
           qpause := [] }

/-- `DEFAULT_CHUNK_SIZE` of steamer.js. -/
def DEFAULT_CHUNK_SIZE : Nat := 256 * 1024 * 4

/-- The `Steamer` chunk reader of steamer.js: the file it slices is
abstracted to its byte length, `progress` is the internal read
cursor. -/
structure Steamer where
  fileSize : Nat
  chunkSize : Nat
  progress : Nat
deriving DecidableEq

/-- A chunk as resolved by `Steamer.next`: the slice `[offset,
offset+size)` of the file (`data` is determined by these bounds) and
the number of bytes read (`event.loaded`). -/
structure Chunk where
  offset : Nat
  size : Nat
deriving DecidableEq

/-- `Steamer.next(offset)` (steamer.js lines 46-68): the `'*'` sentinel
resolves immediately with no chunk and no cursor movement; otherwise
the start is `offset || this.progress` (so both `undefined` and `0`
fall back to the cursor), the slice is `[start, min(start + chunkSize,
fileSize))`, and the cursor advances by the bytes actually read. The
`readyState` guard of the source is a no-op (`!` binds before `==`), so
the promise always resolves. -/
def Steamer.next (s : Steamer) (offset : JsOff) : Option Chunk × Steamer :=
  if offset = JsOff.star then (none, s)
  else
    let o := match offset with
      | JsOff.num n => if n = 0 then s.progress else n
      | _ => s.progress
    let limit0 := o + s.chunkSize
    let limit := if limit0 ≤ s.fileSize then limit0 else s.fileSize
    let loaded := limit - o
    (some { offset := o, size := loaded },
     { s with progress := s.progress + loaded })

/-- An HTTP response to a chunk PUT, reduced to the two fields
src/gcs.js reads: the status and the `Range` response header. -/
structure HttpResp where
  status : Nat
  rangeHeader : Option String
deriving DecidableEq

/-- JS `String.prototype.split` on a single separator character,
modelled structurally on the character list of the string. -/
def splitOnChar (c : Char) : List Char → List (List Char)
  | [] => [[]]
  | a :: rest =>
    let r := splitOnChar c rest
    if a = c then [] :: r
    else
      match r with
      | [] => [[a]]
      | h :: t => (a :: h) :: t

/-- JS `parseInt` restricted to the shapes reachable from a `Range`
header fragment: the value of the leading run of decimal digits, `NaN`
(`none`) when there is none. -/
def jsParseInt (l : List Char) : Option Nat :=
  let t := l.takeWhile Char.isDigit
  if t.isEmpty then none
  else some (t.foldl (fun acc c => acc * 10 + (c.toNat - 48)) 0)

/-- The outcome of the `uploadChunk` response handler as observed by
`doUpload`: `completed` is `{ done: true }`, `gotOffset` is
`{ offset: ... }` (a number, `NaN` or `'*'`), `thrown` is a rejected
promise. -/
inductive PutOutcome where
  | completed
  | gotOffset (o : JsOff)
  | thrown (e : ErrVal)
deriving DecidableEq

/-- The response translation of `uploadChunk` (src/gcs.js lines
330-349): 200/201 is completion; on 308 the header is split on `'-'`
and its second field parsed (a missing header makes `null.split` throw,
a missing or empty field throws `Invalid 'Range' header received`, an
unparsable field yields `{ offset: NaN }`); any other status is the
soft failure `{ offset: '*' }`. -/
def uploadChunkOutcome (r : HttpResp) : PutOutcome :=
  if r.status = 200 ∨ r.status = 201 then PutOutcome.completed
  else if r.status = 308 then
    match r.rangeHeader with
    | none => PutOutcome.thrown ErrVal.typeError
    | some h =>
      match (splitOnChar ('-') h.data).get? 1 with
      | none => PutOutcome.thrown ErrVal.invalidRange
      | some last =>
        if last = [] then PutOutcome.thrown ErrVal.invalidRange
        else
          match jsParseInt last with
          | none => PutOutcome.gotOffset JsOff.nan
          | some n => PutOutcome.gotOffset (JsOff.num n)
  else PutOutcome.gotOffset JsOff.star

/-- `String.prototype.includes('*')` on a range string. -/
def jsIncludesStar (s : String) : Bool := decide (Char.ofNat 42 ∈ s.data)

/-- The chunk PUT request as assembled by `uploadChunk` (src/gcs.js
lines 309-328): when the range string contains `'*'` the request
carries only the CORS header — no body, no Content-Length /
Content-Type / Content-Range; otherwise the content headers are added
and the chunk data is the body. -/
structure Request where
  range : String
  hasContentHeaders : Bool
  contentLength : Option Nat
  body : Option Chunk
deriving DecidableEq

/-- Build the `fetch` options of `uploadChunk` from the chunk and the
range string. -/
def buildRequest (chunk : Option Chunk) (range : String) : Request :=
  if jsIncludesStar range then
    { range := range, hasContentHeaders := false
      contentLength := none, body := none }
  else
    { range := range, hasContentHeaders := true
      contentLength := chunk.map Chunk.size, body := chunk }

/-- The range string computed at the top of `doUpload` (src/gcs.js
lines 354-359): `bytes *` for the sentinel, `bytes o-(o+size-1)` for a
truthy numeric offset, `bytes 0-(size-1)` for a falsy offset, each
suffixed with `/total`. The `chunk.size` read is only reachable with a
chunk present; the 0 default marks the unreachable missing-chunk
case. -/
def mkRange (offset : JsOff) (chunk : Option Chunk) (total : Nat) : String :=
  let csize : Int := (chunk.map Chunk.size).getD 0
  let r :=
    if jsTruthy offset then
      match offset with
      | JsOff.star => "bytes *"
      | JsOff.num n =>
        let e : Int := n + csize - 1
        ("bytes " ++ toString n ++ "-" ++ toString e)
      | _ => "bytes *"
    else
      let e : Int := csize - 1
      ("bytes 0-" ++ toString e)
  (r ++ "/") ++ toString total

/-- The whole transfer system: the upload state object, the chunk
reader, the log of issued chunk PUT requests and the script of
remaining HTTP responses (one response is consumed per issued
request). -/
structure Sys where
  up : Upload
  st : Steamer
  reqs : List Request
  script : List HttpResp
deriving DecidableEq

/-- One round of `doUpload` (src/gcs.js lines 352-382): read the next
chunk, build and issue the PUT, then process the response. The second
component is the offset of the scheduled recursive `doUpload` call, or
`none` when the round does not recurse (terminal state observed,
completion, suppressed retry, or a never-settling fetch modelled by an
empty script). Branch order follows the source: a rejected
`uploadChunk` promise skips the state check and lands in `catch`
(report error, retry with `'*'` only while INPROGRESS); a resolved
response is first checked against `currentState !== INPROGRESS`, then
`done`, then a truthy `offset` (report progress of the offset just
requested, recurse at the returned offset), and a falsy `offset`
throws `Unexpected response` into the same `catch`. -/
def doUploadStep (sys : Sys) (off : JsOff) : Sys × Option JsOff :=
  let nx := sys.st.next off
  let chunk := nx.1
  let st1 := nx.2
  let range := mkRange off chunk sys.up.size
  let req := buildRequest chunk range
  match sys.script with
  | [] => ({ up := sys.up, st := st1, reqs := sys.reqs ++ [req], script := [] }, none)
  | resp :: rest =>
    match uploadChunkOutcome resp with
    | PutOutcome.thrown e =>
      let u2 := sys.up.setError e
      ({ up := u2, st := st1, reqs := sys.reqs ++ [req], script := rest },
       if u2.currentState = UState.INPROGRESS then some JsOff.star else none)
    | PutOutcome.completed =>
      if sys.up.currentState ≠ UState.INPROGRESS then
        ({ up := sys.up, st := st1, reqs := sys.reqs ++ [req], script := rest }, none)
      else
        ({ up := sys.up.setDone true, st := st1, reqs := sys.reqs ++ [req],
           script := rest }, none)
    | PutOutcome.gotOffset o =>
      if sys.up.currentState ≠ UState.INPROGRESS then
        ({ up := sys.up, st := st1, reqs := sys.reqs ++ [req], script := rest }, none)
      else if jsTruthy o then
        ({ up := sys.up.setProgress off, st := st1, reqs := sys.reqs ++ [req],
           script := rest }, some o)
      else
        let u2 := sys.up.setError ErrVal.unexpected
        ({ up := u2, st := st1, reqs := sys.reqs ++ [req], script := rest },
         if u2.currentState = UState.INPROGRESS then some JsOff.star else none)

/-- The `doUpload` recursion, driven by fuel; each recursive call of
the source corresponds to one `doUploadStep`. -/
def runLoop : Nat → Sys → JsOff → Sys
  | 0, sys, _ => sys
  | fuel + 1, sys, off =>
    let r := doUploadStep sys off
    match r.2 with
    | none => r.1
    | some nxt => runLoop fuel r.1 nxt

/-- `upload.resume()` (src/gcs.js lines 202-205): write `false` into
the pause setter, then call `doUpload(this, RESUME_OFFSET)`
unconditionally. -/
def resume (sys : Sys) (fuel : Nat) : Sys :=
  runLoop fuel { sys with up := sys.up.setPause false } JsOff.star

/-- `getSessionUri` (src/gcs.js lines 288-307), reduced to the
negotiation response: any status other than 200/201 throws `Could not
get session URL from GCS`; a body whose JSON lacks the `data` field is
a parse failure surfaced as a rejection. -/
def getSessionUri (status : Nat) (body : Option String) : Except ErrVal String :=
  if status ≠ 201 ∧ status ≠ 200 then Except.error ErrVal.sessionError
  else
    match body with
    | none => Except.error ErrVal.jsonError
    | some d => Except.ok d

/-- A file handed to `run`, reduced to the fields the source reads. -/
structure File where
  size : Nat
  type : String
  name : String
deriving DecidableEq

/-- The synchronous part of `run(file)` (src/gcs.js lines 393-410): a
falsy file throws `You need to provide a file to upload`; otherwise the
`Upload` and its `Steamer` (default chunk size) are built and the
upload object is returned to the caller before any network activity. -/
def run (file : Option File) : Except ErrVal (Upload × Steamer) :=
  match file with
  | none => Except.error ErrVal.noFile
  | some f =>
    Except.ok (mkUpload f.size f.type,
      { fileSize := f.size, chunkSize := DEFAULT_CHUNK_SIZE, progress := 0 })

/-- `run(file)` together with the asynchronous continuation of
src/gcs.js lines 402-407: a failed negotiation routes its error into
`upload.error` and never starts the loop; a successful one stores the
session URI and enters `doUpload(upload)` with no offset. -/
def runAfterSession (file : Option File) (status : Nat) (body : Option String)
    (script : List HttpResp) (fuel : Nat) : Except ErrVal Sys :=
  match run file with
  | Except.error e => Except.error e
  | Except.ok (up, st) =>
    match getSessionUri status body with
    | Except.error e =>
      Except.ok { up := up.setError e, st := st, reqs := [], script := script }
    | Except.ok uri =>
      runLoop fuel
        { up := { up with sessionUri := some uri }, st := st, reqs := [],
          script := script } JsOff.undef |> Except.ok

/-- The probe request produced for the `'*'` sentinel: range
`bytes */<total>`, no body, no content headers. -/
def probeReq (total : Nat) : Request :=
  { range := ("bytes */") ++ toString total
    hasContentHeaders := false
    contentLength := none
    body := none }

/-- Prepend a numeric start offset to an acknowledgement list; used to
describe which offsets the loop reports as progress. -/
def prependOff : JsOff → List Nat → List Nat
  | JsOff.num m, os => m :: os
  | _, os => os


/-! ### Helper lemmas -/

/-- A JS array of length at most one has an empty tail. -/
theorem tail_eq_nil_of_length_le_one (l : List α) (h : l.length ≤ 1) :
    l.tail = [] := by
  cases l with
  | nil => rfl
  | cons a t =>
    cases t with
    | nil => rfl
    | cons b t2 => simp at h

/-- The progress setter ignores `undefined`. -/
theorem setProgress_undef (u : Upload) : u.setProgress JsOff.undef = u := rfl

/-- The progress setter ignores the `'*'` sentinel. -/
theorem setProgress_star (u : Upload) : u.setProgress JsOff.star = u := rfl

/-- With a listener attached, a positive offset is delivered directly,
tagged with the current attachment generation. -/
theorem setProgress_dev (u : Upload) (h : u.onprogressSet = true) (n : Nat) :
    (u.setProgress (JsOff.num (n + 1))).devProgress
      = u.devProgress ++ [(u.progressGen, n + 1)] := by
  simp [Upload.setProgress, h]

/-- Fields of the upload state which the progress setter never touches. -/
theorem setProgress_preserve (u : Upload) (o : JsOff) :
    (u.setProgress o)._done = u._done ∧ (u.setProgress o)._cancel = u._cancel ∧
    (u.setProgress o)._pause = u._pause ∧
    (u.setProgress o).onprogressSet = u.onprogressSet ∧
    (u.setProgress o).progressGen = u.progressGen ∧
    (u.setProgress o).qpause = u.qpause ∧
    (u.setProgress o).qerror = u.qerror ∧
    (u.setProgress o).devError = u.devError ∧
    (u.setProgress o).size = u.size := by
  unfold Upload.setProgress
  split <;> (try split) <;> simp

/-- Fields of the upload state which the error setter never touches. -/
theorem setError_preserve (u : Upload) (e : ErrVal) :
    (u.setError e)._done = u._done ∧ (u.setError e)._cancel = u._cancel ∧
    (u.setError e)._pause = u._pause ∧
    (u.setError e).onprogressSet = u.onprogressSet ∧
    (u.setError e).progressGen = u.progressGen ∧
    (u.setError e).qpause = u.qpause ∧
    (u.setError e).devProgress = u.devProgress ∧
    (u.setError e).qprogress = u.qprogress ∧
    (u.setError e).size = u.size := by
  cases h : u.onerrorSet <;> simp [Upload.setError, h]

/-- Fields of the upload state which the done setter never touches. -/
theorem setDone_preserve (u : Upload) (d : Bool) :
    (u.setDone d).devProgress = u.devProgress ∧ (u.setDone d).qpause = u.qpause ∧
    (u.setDone d).devError = u.devError ∧ (u.setDone d).qprogress = u.qprogress ∧
    (u.setDone d).size = u.size := by
  cases d <;> cases h : u.ondoneSet <;> simp [Upload.setDone, h]

/-- Writing `true` into the done setter always sets the `_done` flag. -/
theorem setDone_done (u : Upload) : (u.setDone true)._done = true := by
  cases h : u.ondoneSet <;> simp [Upload.setDone, h]

/-- The pause setter never touches the upload size. -/
theorem setPause_size (u : Upload) (b : Bool) : (u.setPause b).size = u.size := by
  cases b <;> cases h : u.onpauseSet <;> simp [Upload.setPause, h]

/-- With no flags set, the derived state is INPROGRESS. -/
theorem currentState_inprogress (u : Upload) (h1 : u._done = false)
    (h2 : u._cancel = false) (h3 : u._pause = false) :
    u.currentState = UState.INPROGRESS := by
  simp [Upload.currentState, h1, h2, h3]

/-- Every round of the loop logs exactly one request: the PUT built
from the chunk read at the round offset. -/
theorem doUploadStep_reqs (sys : Sys) (off : JsOff) :
    (doUploadStep sys off).1.reqs
      = sys.reqs ++ [buildRequest (sys.st.next off).1
          (mkRange off (sys.st.next off).1 sys.up.size)] := by
  simp only [doUploadStep]
  split
  · rfl
  · split <;> (try split) <;> (try split) <;> rfl

/-- No round of the loop touches the `onpause` event queue. -/
theorem doUploadStep_qpause (sys : Sys) (off : JsOff) :
    (doUploadStep sys off).1.up.qpause = sys.up.qpause := by
  simp only [doUploadStep]
  split
  · rfl
  · split
    · exact (setError_preserve _ _).2.2.2.2.2.1
    · split
      · rfl
      · exact (setDone_preserve _ _).2.1
    · split
      · rfl
      · split
        · exact (setProgress_preserve _ _).2.2.2.2.2.1
        · exact (setError_preserve _ _).2.2.2.2.2.1

/-- Unfolding the loop at a non-recursing round. -/
theorem runLoop_stop (fuel : Nat) (sys sys1 : Sys) (off : JsOff)
    (h : doUploadStep sys off = (sys1, none)) :
    runLoop (fuel + 1) sys off = sys1 := by
  simp [runLoop, h]

/-- Unfolding the loop at a recursing round. -/
theorem runLoop_go (fuel : Nat) (sys sys1 : Sys) (off nxt : JsOff)
    (h : doUploadStep sys off = (sys1, some nxt)) :
    runLoop (fuel + 1) sys off = runLoop fuel sys1 nxt := by
  simp [runLoop, h]

/-- The whole loop never touches the `onpause` event queue. -/
theorem runLoop_qpause (fuel : Nat) : ∀ (sys : Sys) (off : JsOff),
    (runLoop fuel sys off).up.qpause = sys.up.qpause := by
  induction fuel with
  | zero => intro sys off; rfl
  | succ f ih =>
    intro sys off
    rcases h : doUploadStep sys off with ⟨sys1, nxt⟩
    have hq := doUploadStep_qpause sys off
    rw [h] at hq
    rcases nxt with _ | nxt
    · rw [runLoop_stop f sys sys1 off h]
      exact hq
    · rw [runLoop_go f sys sys1 off nxt h]
      rw [ih sys1 nxt]
      exact hq

/-- The loop only appends to the request log. -/
theorem runLoop_reqs_ext (fuel : Nat) : ∀ (sys : Sys) (off : JsOff),
    ∃ t, (runLoop fuel sys off).reqs = sys.reqs ++ t := by
  induction fuel with
  | zero => intro sys off; exact ⟨[], by simp [runLoop]⟩
  | succ f ih =>
    intro sys off
    rcases h : doUploadStep sys off with ⟨sys1, nxt⟩
    have hreq := doUploadStep_reqs sys off
    rw [h] at hreq
    rcases nxt with _ | nxt
    · rw [runLoop_stop f sys sys1 off h]
      exact ⟨_, hreq⟩
    · rw [runLoop_go f sys sys1 off nxt h]
      obtain ⟨t, ht⟩ := ih sys1 nxt
      refine ⟨[buildRequest (sys.st.next off).1
        (mkRange off (sys.st.next off).1 sys.up.size)] ++ t, ?_⟩
      rw [ht, hreq, List.append_assoc]

/-- The request built for the `'*'` sentinel round is the zero-body
probe. -/
theorem star_request (st : Steamer) (total : Nat) :
    buildRequest (st.next JsOff.star).1 (mkRange JsOff.star (st.next JsOff.star).1 total)
      = probeReq total := by
  simp [Steamer.next, mkRange, jsTruthy, buildRequest, jsIncludesStar, probeReq]

/-- Characterization of a loop round that receives a 308
acknowledgement at a positive offset while INPROGRESS. -/
theorem doUploadStep_ack (sys : Sys) (off : JsOff) (resp : HttpResp)
    (rest : List HttpResp) (n : Nat)
    (hs : sys.script = resp :: rest)
    (ho : uploadChunkOutcome resp = PutOutcome.gotOffset (JsOff.num (n + 1)))
    (hst : sys.up.currentState = UState.INPROGRESS) :
    doUploadStep sys off
      = ({ up := sys.up.setProgress off, st := (sys.st.next off).2,
           reqs := sys.reqs ++ [buildRequest (sys.st.next off).1
             (mkRange off (sys.st.next off).1 sys.up.size)],
           script := rest }, some (JsOff.num (n + 1))) := by
  obtain ⟨up, st, reqs, script⟩ := sys
  simp only at hs hst
  subst hs
  simp [doUploadStep, ho, hst, jsTruthy]

/-- Characterization of a loop round that receives a completion
response while INPROGRESS. -/
theorem doUploadStep_completed (sys : Sys) (off : JsOff) (resp : HttpResp)
    (rest : List HttpResp)
    (hs : sys.script = resp :: rest)
    (ho : uploadChunkOutcome resp = PutOutcome.completed)
    (hst : sys.up.currentState = UState.INPROGRESS) :
    doUploadStep sys off
      = ({ up := sys.up.setDone true, st := (sys.st.next off).2,
           reqs := sys.reqs ++ [buildRequest (sys.st.next off).1
             (mkRange off (sys.st.next off).1 sys.up.size)],
           script := rest }, none) := by
  obtain ⟨up, st, reqs, script⟩ := sys
  simp only at hs hst
  subst hs
  simp [doUploadStep, ho, hst]


/-- Characterization of a loop round whose fetch never settles (empty
script): the request is still issued, nothing else happens. -/
theorem doUploadStep_noresp (sys : Sys) (off : JsOff) (h : sys.script = []) :
    doUploadStep sys off
      = ({ up := sys.up, st := (sys.st.next off).2,
           reqs := sys.reqs ++ [buildRequest (sys.st.next off).1
             (mkRange off (sys.st.next off).1 sys.up.size)],
           script := [] }, none) := by
  obtain ⟨up, st, reqs, script⟩ := sys
  simp only at h
  subst h
  simp [doUploadStep]

/-! ### Claim theorems -/

/-- C5: after `pause()` followed by `resume()`, the very next HTTP
request issued is the zero-body probe: `resume` re-enters the loop with
the resume marker, and the request logged at the first position after
the existing log is `bytes */<total>` with no body and no
Content-Length / Content-Type / Content-Range headers — never a
concrete-range request at the last progressed offset. -/
theorem c5_resume_probe (sys : Sys) (fuel : Nat) :
    ((resume { sys with up := sys.up.pause } (fuel + 1)).reqs)[sys.reqs.length]?
      = some (probeReq sys.up.size) ∧
    (probeReq sys.up.size).body = none ∧
    (probeReq sys.up.size).hasContentHeaders = false ∧
    (probeReq sys.up.size).contentLength = none ∧
    (probeReq sys.up.size).range = ("bytes */") ++ toString sys.up.size := by
  refine ⟨?_, rfl, rfl, rfl, rfl⟩
  unfold resume
  rcases h : doUploadStep { sys with up := (sys.up.pause).setPause false } JsOff.star
    with ⟨sys2, nxt⟩
  have hreq := doUploadStep_reqs { sys with up := (sys.up.pause).setPause false } JsOff.star
  rw [h] at hreq
  simp only at hreq
  rw [star_request] at hreq
  have hsize : ((sys.up.pause).setPause false).size = sys.up.size := by
    rw [setPause_size]
    exact setPause_size sys.up true
  rw [hsize] at hreq
  rcases nxt with _ | nxt
  · rw [runLoop_stop fuel _ sys2 JsOff.star h, hreq]
    exact List.getElem?_concat_length sys.reqs (probeReq sys.up.size)
  · rw [runLoop_go fuel _ sys2 JsOff.star nxt h]
    obtain ⟨t, ht⟩ := runLoop_reqs_ext fuel sys2 nxt
    rw [ht, hreq, List.append_assoc]
    rw [List.getElem?_append_right (Nat.le_refl _)]
    simp

/-- C6: the failing input of the pause-transition claim, evaluated on
the code: with an `onpause` listener attached, calling `pause()` twice
fires the listener twice — the setter emits on every truthy write, so
the second `pause()` re-emits although the upload was already
paused. -/
theorem c6_pause_twice :
    ((((mkUpload 10 ("t")).setOnpause).pause).pause).devPause = 2 ∧
    ¬ ((((mkUpload 10 ("t")).setOnpause).pause).pause).devPause = 1 := by
  decide

/-- C7: attaching a progress listener synchronously drains the buffered
progress events into it in FIFO order and empties the queue; attaching
another listener afterwards delivers nothing retroactively; subsequent
events are delivered directly to the attached listener; attaching the
progress listener leaves every other kind's queue untouched; and the
same drain behaviour holds for the error kind. -/
theorem c7_event_replay (u : Upload) :
    (u.setOnprogress).devProgress
      = u.devProgress ++ u.qprogress.map (fun v => (u.progressGen + 1, v)) ∧
    (u.setOnprogress).qprogress = [] ∧
    ((u.setOnprogress).setOnprogress).devProgress = (u.setOnprogress).devProgress ∧
    (∀ n : Nat, ((u.setOnprogress).setProgress (JsOff.num (n + 1))).devProgress
        = (u.setOnprogress).devProgress ++ [(u.progressGen + 1, n + 1)]) ∧
    (u.setOnprogress).qerror = u.qerror ∧
    (u.setOnprogress).qdone = u.qdone ∧
    (u.setOnprogress).qcancel = u.qcancel ∧
    (u.setOnprogress).qpause = u.qpause ∧
    (u.setOnerror).devError = u.devError ++ u.qerror ∧
    (u.setOnerror).qerror = [] := by
  refine ⟨rfl, rfl, by simp [Upload.setOnprogress], ?_, rfl, rfl, rfl, rfl, rfl, rfl⟩
  intro n
  simp [Upload.setOnprogress, Upload.setProgress]

/-- C8 counterexample: with the read cursor at 50, `next(0)` reads from
the cursor — the falsy check `offset || this.progress` conflates the
numeric offset 0 with an absent offset — so the chunk starts at 50,
not at byte 0 as the claim states. -/
theorem c8_next_zero_cex :
    (Steamer.next { fileSize := 100, chunkSize := 10, progress := 50 }
        (JsOff.num 0)).1 = some { offset := 50, size := 10 } ∧
    ¬ (Steamer.next { fileSize := 100, chunkSize := 10, progress := 50 }
        (JsOff.num 0)).1 = some { offset := 0, size := 10 } := by
  decide

/-- C8 amended: `next` on the resume marker resolves empty and leaves
the cursor alone; `next(o)` for a positive numeric offset reads
`min(chunkSize, size - o)` bytes starting at `o` and advances the
cursor by the bytes read; `next()` with the offset absent reads at the
internal cursor; and `next(0)` behaves exactly like an absent offset
(reads at the cursor), because 0 is falsy. -/
theorem c8_next_contract (s : Steamer) (n : Nat) :
    s.next JsOff.star = (none, s) ∧
    (s.next (JsOff.num (n + 1))).1
      = some { offset := n + 1, size := min s.chunkSize (s.fileSize - (n + 1)) } ∧
    (s.next (JsOff.num (n + 1))).2.progress
      = s.progress + min s.chunkSize (s.fileSize - (n + 1)) ∧
    (s.next JsOff.undef).1
      = some { offset := s.progress, size := min s.chunkSize (s.fileSize - s.progress) } ∧
    (s.next JsOff.undef).2.progress
      = s.progress + min s.chunkSize (s.fileSize - s.progress) ∧
    s.next (JsOff.num 0) = s.next JsOff.undef := by
  refine ⟨rfl, ?_, ?_, ?_, ?_, rfl⟩ <;>
    simp [Steamer.next] <;> split <;> simp <;> omega

/-- C9: `run(file)` throws synchronously exactly when the file is
falsy; for a present file it returns the upload object synchronously in
its initial state; a failed session negotiation is routed into the
error signal (buffered while no error listener is attached, delivered
on attachment) with an empty request log — no chunk PUT is ever
issued. -/
theorem c9_run_surface (f : File) (status : Nat) (body : Option String)
    (script : List HttpResp) (fuel : Nat)
    (h200 : ¬ status = 200) (h201 : ¬ status = 201) :
    runAfterSession none status body script fuel = Except.error ErrVal.noFile ∧
    run (some f) = Except.ok (mkUpload f.size f.type,
      { fileSize := f.size, chunkSize := DEFAULT_CHUNK_SIZE, progress := 0 }) ∧
    runAfterSession (some f) status body script fuel
      = Except.ok { up := (mkUpload f.size f.type).setError ErrVal.sessionError,
                    st := { fileSize := f.size, chunkSize := DEFAULT_CHUNK_SIZE,
                            progress := 0 },
                    reqs := [], script := script } ∧
    ((mkUpload f.size f.type).setError ErrVal.sessionError).qerror
      = [ErrVal.sessionError] ∧
    (((mkUpload f.size f.type).setError ErrVal.sessionError).setOnerror).devError
      = [ErrVal.sessionError] := by
  refine ⟨rfl, rfl, ?_, by simp [mkUpload, Upload.setError],
    by simp [mkUpload, Upload.setError, Upload.setOnerror]⟩
  simp [runAfterSession, run, getSessionUri, h200, h201]

/-- C9 witness: the surface contract evaluated at a concrete file and a
failed negotiation status. -/
theorem c9_run_surface_w :
    runAfterSession none 500 none [] 1 = Except.error ErrVal.noFile :=
  (c9_run_surface { size := 10, type := "t", name := "f" } 500 none [] 1
    (by decide) (by decide)).1

/-- C10: for the done, cancel and pause kinds each pre-listener
emission overwrites slot 0 of the queue, so the buffer never exceeds
one entry and attaching a listener replays at most one event; the
pause buffer holds the most recently written flag value, including the
`false` that `resume()` writes; the progress and error queues instead
append one entry per emission. -/
theorem c10_single_slot (u : Upload) (b : Bool) (n : Nat) (e : ErrVal)
    (sys : Sys) (fuel : Nat)
    (hd : u.qdone.length ≤ 1) (hc : u.qcancel.length ≤ 1)
    (hp : u.qpause.length ≤ 1)
    (h1 : u.ondoneSet = false) (h2 : u.oncancelSet = false)
    (h3 : u.onpauseSet = false)
    (h4 : u.onprogressSet = false) (h5 : u.onerrorSet = false)
    (h6 : sys.up.onpauseSet = false) (h7 : sys.up.qpause.length ≤ 1) :
    (u.done).qdone = [true] ∧
    ((u.done).done).qdone = [true] ∧
    (u.cancel).qcancel = [true] ∧
    ((u.cancel).cancel).qcancel = [true] ∧
    (u.setPause b).qpause = [b] ∧
    ((u.setPause b).setPause false).qpause = [false] ∧
    (resume sys fuel).up.qpause = [false] ∧
    (u.setProgress (JsOff.num (n + 1))).qprogress = u.qprogress ++ [n + 1] ∧
    (u.setError e).qerror = u.qerror ++ [e] ∧
    ((u.done).setOndone).devDone = u.devDone + 1 ∧
    ((u.cancel).setOncancel).devCancel = u.devCancel + 1 := by
  have htd := tail_eq_nil_of_length_le_one u.qdone hd
  have htc := tail_eq_nil_of_length_le_one u.qcancel hc
  have htp := tail_eq_nil_of_length_le_one u.qpause hp
  have hts := tail_eq_nil_of_length_le_one sys.up.qpause h7
  refine ⟨?_, ?_, ?_, ?_, ?_, ?_, ?_, ?_, ?_, ?_, ?_⟩
  · simp [Upload.done, Upload.setDone, h1, slot0, htd]
  · simp [Upload.done, Upload.setDone, h1, slot0, htd]
  · simp [Upload.cancel, Upload.setCancel, h2, slot0, htc]
  · simp [Upload.cancel, Upload.setCancel, h2, slot0, htc]
  · simp [Upload.setPause, h3, slot0, htp]
  · simp [Upload.setPause, h3, slot0, htp]
  · rw [resume, runLoop_qpause]
    simp [Upload.setPause, h6, slot0, hts]
  · simp [Upload.setProgress, h4]
  · simp [Upload.setError, h5]
  · simp [Upload.done, Upload.setDone, Upload.setOndone, h1, slot0, htd]
  · simp [Upload.cancel, Upload.setCancel, Upload.setOncancel, h2, slot0, htc]

/-- C10 witness: the single-slot behaviour evaluated at a fresh upload
and an idle system. -/
theorem c10_single_slot_w :
    (((mkUpload 5 ("t")).done)).qdone = [true] :=
  (c10_single_slot (mkUpload 5 ("t")) false 0 ErrVal.unexpected
    { up := mkUpload 5 ("t"),
      st := { fileSize := 5, chunkSize := 2, progress := 0 },
      reqs := [], script := [] } 0
    (by decide) (by decide) (by decide) (by decide) (by decide) (by decide)
    (by decide) (by decide) (by decide) (by decide)).1


/-- C1: the transfer evaluated at the failing input of the chunking
claim — chunkSize 100, source size 110, first PUT acknowledged with
308 `Range: bytes 0-99`, then 200. The loop does issue exactly 2
concrete-range PUTs and completes, but after the acknowledgement
`bytes 0-<n>` it resumes at offset `n`, not `n + 1`: the second
request is `bytes 99-109/110` with body `[99, 110)`, re-transmitting
byte 99, instead of the claimed `bytes 100-109/110`. -/
theorem c1_chunk_boundary :
    (runLoop 3
      { up := mkUpload 110 ("ct")
        st := { fileSize := 110, chunkSize := 100, progress := 0 }
        reqs := []
        script := [{ status := 308, rangeHeader := some ("bytes 0-99") },
                   { status := 200, rangeHeader := none }] }
      JsOff.undef).reqs.map (fun r => (r.range, r.body, r.hasContentHeaders))
      = [(("bytes 0-99/110"), some { offset := 0, size := 100 }, true),
         (("bytes 99-109/110"), some { offset := 99, size := 11 }, true)] ∧
    (runLoop 3
      { up := mkUpload 110 ("ct")
        st := { fileSize := 110, chunkSize := 100, progress := 0 }
        reqs := []
        script := [{ status := 308, rangeHeader := some ("bytes 0-99") },
                   { status := 200, rangeHeader := none }] }
      JsOff.undef).up._done = true ∧
    ¬ (runLoop 3
      { up := mkUpload 110 ("ct")
        st := { fileSize := 110, chunkSize := 100, progress := 0 }
        reqs := []
        script := [{ status := 308, rangeHeader := some ("bytes 0-99") },
                   { status := 200, rangeHeader := none }] }
      JsOff.undef).reqs.map (fun r => r.body.map Chunk.offset)
      = [some 0, some 100] := by
  decide

/-- C2 counterexample: with a transport returning 503 on the first two
chunk PUTs and 200 on the third (listeners attached throughout), the
upload ends done but zero error signals are delivered — not the two
the claim requires — because a non-2xx/non-308 status is translated to
the soft result `{ offset: '*' }` and never reported through the error
signal. -/
theorem c2_soft_failure_cex :
    (runLoop 3
      { up := (((mkUpload 50 ("ct")).setOnprogress).setOnerror).setOndone
        st := { fileSize := 50, chunkSize := 20, progress := 0 }
        reqs := []
        script := [{ status := 503, rangeHeader := none },
                   { status := 503, rangeHeader := none },
                   { status := 200, rangeHeader := none }] }
      JsOff.undef).up._done = true ∧
    (runLoop 3
      { up := (((mkUpload 50 ("ct")).setOnprogress).setOnerror).setOndone
        st := { fileSize := 50, chunkSize := 20, progress := 0 }
        reqs := []
        script := [{ status := 503, rangeHeader := none },
                   { status := 503, rangeHeader := none },
                   { status := 200, rangeHeader := none }] }
      JsOff.undef).up.devError = [] ∧
    ¬ (runLoop 3
      { up := (((mkUpload 50 ("ct")).setOnprogress).setOnerror).setOndone
        st := { fileSize := 50, chunkSize := 20, progress := 0 }
        reqs := []
        script := [{ status := 503, rangeHeader := none },
                   { status := 503, rangeHeader := none },
                   { status := 200, rangeHeader := none }] }
      JsOff.undef).up.devError.length = 2 := by
  decide

/-- C2 amended: a non-2xx/non-308 chunk PUT status is a soft failure:
it is translated to `{ offset: '*' }`, never reported through the
error signal (the error log and queue are unchanged; only rejected
promises reach the error signal), and retried by re-entering the loop
with the resume marker. The only state change of such a round is the
`upload.progress = offset` write of the offset the round *requested*:
the round therefore emits a progress signal carrying that requested
offset exactly when it is a truthy number, and no progress signal when
the round was requested with no offset or with the resume marker — as
in the claim's scenario, where the 503/503/200 transport ends done
with exactly 0 error signals and 0 progress signals. -/
theorem c2_soft_failure_policy (sys : Sys) (off : JsOff) (resp : HttpResp)
    (rest : List HttpResp)
    (hs : sys.script = resp :: rest)
    (h200 : ¬ resp.status = 200) (h201 : ¬ resp.status = 201)
    (h308 : ¬ resp.status = 308)
    (hst : sys.up.currentState = UState.INPROGRESS) :
    uploadChunkOutcome resp = PutOutcome.gotOffset JsOff.star ∧
    (doUploadStep sys off).1.up.devError = sys.up.devError ∧
    (doUploadStep sys off).1.up.qerror = sys.up.qerror ∧
    (doUploadStep sys off).1.up = sys.up.setProgress off ∧
    (doUploadStep sys off).2 = some JsOff.star ∧
    ((off = JsOff.undef ∨ off = JsOff.star) →
      (doUploadStep sys off).1.up.devProgress = sys.up.devProgress) ∧
    (∀ n : Nat, off = JsOff.num (n + 1) → sys.up.onprogressSet = true →
      (doUploadStep sys off).1.up.devProgress
        = sys.up.devProgress ++ [(sys.up.progressGen, n + 1)]) ∧
    (runLoop 3
      { up := (((mkUpload 50 ("ct")).setOnprogress).setOnerror).setOndone
        st := { fileSize := 50, chunkSize := 20, progress := 0 }
        reqs := []
        script := [{ status := 503, rangeHeader := none },
                   { status := 503, rangeHeader := none },
                   { status := 200, rangeHeader := none }] }
      JsOff.undef).up._done = true ∧
    (runLoop 3
      { up := (((mkUpload 50 ("ct")).setOnprogress).setOnerror).setOndone
        st := { fileSize := 50, chunkSize := 20, progress := 0 }
        reqs := []
        script := [{ status := 503, rangeHeader := none },
                   { status := 503, rangeHeader := none },
                   { status := 200, rangeHeader := none }] }
      JsOff.undef).up.devError = [] ∧
    (runLoop 3
      { up := (((mkUpload 50 ("ct")).setOnprogress).setOnerror).setOndone
        st := { fileSize := 50, chunkSize := 20, progress := 0 }
        reqs := []
        script := [{ status := 503, rangeHeader := none },
                   { status := 503, rangeHeader := none },
                   { status := 200, rangeHeader := none }] }
      JsOff.undef).up.devProgress = [] := by
  have houtc : uploadChunkOutcome resp = PutOutcome.gotOffset JsOff.star := by
    simp [uploadChunkOutcome, h200, h201, h308]
  have hstep : doUploadStep sys off
      = ({ up := sys.up.setProgress off, st := (sys.st.next off).2,
           reqs := sys.reqs ++ [buildRequest (sys.st.next off).1
             (mkRange off (sys.st.next off).1 sys.up.size)],
           script := rest }, some JsOff.star) := by
    obtain ⟨up, st, reqs, script⟩ := sys
    simp only at hs hst
    subst hs
    simp [doUploadStep, houtc, hst, jsTruthy]
  rw [hstep]
  refine ⟨houtc, ?_, ?_, rfl, rfl, ?_, ?_, ?_, ?_, ?_⟩
  · exact (setProgress_preserve sys.up off).2.2.2.2.2.2.2.1
  · exact (setProgress_preserve sys.up off).2.2.2.2.2.2.1
  · intro hoff
    rcases hoff with h | h <;> subst h <;> rfl
  · intro n hoff hatt
    subst hoff
    exact setProgress_dev sys.up hatt n
  · decide
  · decide
  · decide

/-- C2 witness: the soft-failure policy evaluated at a 503 response
arriving for the first round of a fresh in-progress transfer. -/
theorem c2_soft_failure_policy_w :
    uploadChunkOutcome { status := 503, rangeHeader := none }
      = PutOutcome.gotOffset JsOff.star :=
  (c2_soft_failure_policy
    { up := mkUpload 50 ("ct")
      st := { fileSize := 50, chunkSize := 20, progress := 0 }
      reqs := []
      script := [{ status := 503, rangeHeader := none }] }
    JsOff.undef { status := 503, rangeHeader := none } []
    rfl (by decide) (by decide) (by decide) (by decide)).1

/-- C3 counterexample: calling `cancel()` after the upload was marked
done does have an observable effect — with an `oncancel` listener
attached the listener fires (one delivery where there were zero) and
the `_cancel` flag is set. -/
theorem c3_cancel_after_done_cex :
    ((((mkUpload 10 ("t")).setOncancel).done).cancel).devCancel = 1 ∧
    ((((mkUpload 10 ("t")).setOncancel).done).cancel)._cancel = true ∧
    (((mkUpload 10 ("t")).setOncancel).done).devCancel = 0 := by
  decide

/-- C3 amended: the terminal check lives only inside the loop: a chunk
response that resolves while the derived status is not INPROGRESS is
discarded without state change and without scheduling another round.
However, `cancel()` after done still sets the cancelled flag and emits
a cancel signal (the derived status stays DONE by precedence), and
`resume()` while Cancelled or Done still clears the pause flag and
issues one probe request before that check can discard anything. -/
theorem c3_terminal_behaviour (sysA : Sys) (offA : JsOff) (respA : HttpResp)
    (restA : List HttpResp) (u : Upload) (sysC : Sys) (fuelC : Nat)
    (hA1 : sysA.script = respA :: restA)
    (hA2 : ¬ sysA.up.currentState = UState.INPROGRESS)
    (hA3 : uploadChunkOutcome respA = PutOutcome.completed ∨
      ∃ o, uploadChunkOutcome respA = PutOutcome.gotOffset o)
    (hB : u.oncancelSet = true)
    (_hC0 : sysC.up._cancel = true ∨ sysC.up._done = true)
    (hC1 : sysC.script = []) :
    (doUploadStep sysA offA).2 = none ∧
    (doUploadStep sysA offA).1.up = sysA.up ∧
    ((u.done).cancel).devCancel = (u.done).devCancel + 1 ∧
    ((u.done).cancel)._cancel = true ∧
    ((u.done).cancel).currentState = UState.DONE ∧
    (resume sysC (fuelC + 1)).reqs.length = sysC.reqs.length + 1 ∧
    (resume sysC (fuelC + 1)).up = sysC.up.setPause false := by
  have hstep : (doUploadStep sysA offA).2 = none ∧
      (doUploadStep sysA offA).1.up = sysA.up := by
    obtain ⟨up, st, reqs, script⟩ := sysA
    simp only at hA1 hA2
    subst hA1
    rcases hA3 with h | ⟨o, h⟩ <;> simp [doUploadStep, h, hA2]
  have hcanc : ((u.done).cancel).devCancel = (u.done).devCancel + 1 ∧
      ((u.done).cancel)._cancel = true ∧
      ((u.done).cancel).currentState = UState.DONE := by
    have hset : (u.done).oncancelSet = true := by
      rw [Upload.done]
      cases h : u.ondoneSet <;> simp [Upload.setDone, h, hB]
    have hdone : (u.done)._done = true := setDone_done u
    refine ⟨?_, ?_, ?_⟩ <;>
      simp [Upload.cancel, Upload.setCancel, Upload.currentState, hset, hdone]
  have hres : (resume sysC (fuelC + 1)).reqs.length = sysC.reqs.length + 1 ∧
      (resume sysC (fuelC + 1)).up = sysC.up.setPause false := by
    have hscr : ({ sysC with up := sysC.up.setPause false } : Sys).script = [] := hC1
    have hstep2 := doUploadStep_noresp { sysC with up := sysC.up.setPause false }
      JsOff.star hscr
    have hrun := runLoop_stop fuelC _ _ JsOff.star hstep2
    rw [resume, hrun]
    exact ⟨by simp, rfl⟩
  exact ⟨hstep.1, hstep.2, hcanc.1, hcanc.2.1, hcanc.2.2, hres.1, hres.2⟩

/-- C3 witness: the terminal behaviour evaluated at a cancelled system
receiving a completion response, a done upload being cancelled, and a
cancelled system being resumed. -/
theorem c3_terminal_behaviour_w :
    (doUploadStep
      { up := ((mkUpload 10 ("t")).setOncancel).cancel
        st := { fileSize := 10, chunkSize := 4, progress := 0 }
        reqs := [], script := [{ status := 200, rangeHeader := none }] }
      JsOff.star).2 = none :=
  (c3_terminal_behaviour
    { up := ((mkUpload 10 ("t")).setOncancel).cancel
      st := { fileSize := 10, chunkSize := 4, progress := 0 }
      reqs := [], script := [{ status := 200, rangeHeader := none }] }
    JsOff.star { status := 200, rangeHeader := none } []
    ((mkUpload 10 ("t")).setOncancel)
    { up := ((mkUpload 10 ("t")).setOncancel).cancel
      st := { fileSize := 10, chunkSize := 4, progress := 0 }
      reqs := [], script := [] } 0
    rfl (by decide) (Or.inl (by decide)) (by decide) (Or.inl (by decide))
    rfl).1


/-- Induction core for the progress-signal analysis: starting from an
INPROGRESS system whose remaining script is a block of 308
acknowledgements at positive offsets followed by a completion
response, the loop ends with the done flag set, and the progress
deliveries appended to the log are exactly the truthy round offsets:
the start offset followed by every acknowledged offset except the
last. -/
theorem runLoop_acks (os : List Nat) :
    ∀ (resps : List HttpResp) (sys : Sys) (a : JsOff) (fuel : Nat) (fin : HttpResp),
      List.Forall₂ (fun r o => uploadChunkOutcome r
        = PutOutcome.gotOffset (JsOff.num o)) resps os →
      (∀ o ∈ os, o ≠ 0) →
      sys.script = resps ++ [fin] →
      uploadChunkOutcome fin = PutOutcome.completed →
      sys.up._done = false → sys.up._cancel = false → sys.up._pause = false →
      sys.up.onprogressSet = true →
      (a = JsOff.undef ∨ ∃ m : Nat, a = JsOff.num (m + 1)) →
      os.length < fuel →
      (runLoop fuel sys a).up._done = true ∧
      (runLoop fuel sys a).up.devProgress
        = sys.up.devProgress
          ++ ((prependOff a os).dropLast).map (fun v => (sys.up.progressGen, v)) := by
  induction os with
  | nil =>
    intro resps sys a fuel fin hF2 hpos hs hfin hd hc hp hatt ha hfuel
    cases hF2
    rcases fuel with _ | f
    · omega
    · have hst := currentState_inprogress sys.up hd hc hp
      have hstep := doUploadStep_completed sys a fin [] hs hfin hst
      rw [runLoop_stop f sys _ a hstep]
      refine ⟨setDone_done sys.up, ?_⟩
      rw [(setDone_preserve sys.up true).1]
      rcases ha with h | ⟨m, h⟩ <;> subst h <;> simp [prependOff]
  | cons o os' ih =>
    intro resps sys a fuel fin hF2 hpos hs hfin hd hc hp hatt ha hfuel
    rcases resps with _ | ⟨r, resps'⟩
    · cases hF2
    · cases hF2 with
      | cons hr hF2' =>
        rcases fuel with _ | f
        · omega
        · have ho : o ≠ 0 := hpos o (List.mem_cons_self o os')
          obtain ⟨m, hm⟩ := Nat.exists_eq_succ_of_ne_zero ho
          subst hm
          have hst := currentState_inprogress sys.up hd hc hp
          have hstep := doUploadStep_ack sys a r (resps' ++ [fin]) m hs hr hst
          rw [runLoop_go f sys _ a (JsOff.num (m + 1)) hstep]
          have hps := setProgress_preserve sys.up a
          have hfuel2 : os'.length < f := by
            simp [List.length_cons] at hfuel
            omega
          have hih := ih resps'
            { up := sys.up.setProgress a, st := (sys.st.next a).2,
              reqs := sys.reqs ++ [buildRequest (sys.st.next a).1
                (mkRange a (sys.st.next a).1 sys.up.size)],
              script := resps' ++ [fin] }
            (JsOff.num (m + 1)) f fin hF2'
            (fun x hx => hpos x (List.mem_cons_of_mem (m + 1) hx)) rfl hfin
            (by simp only; rw [hps.1]; exact hd)
            (by simp only; rw [hps.2.1]; exact hc)
            (by simp only; rw [hps.2.2.1]; exact hp)
            (by simp only; rw [hps.2.2.2.1]; exact hatt)
            (Or.inr ⟨m, rfl⟩) hfuel2
          refine ⟨hih.1, ?_⟩
          rw [hih.2]
          simp only
          rw [hps.2.2.2.2.1]
          rcases ha with h | ⟨k, h⟩ <;> subst h
          · rw [setProgress_undef]
            simp [prependOff]
          · rw [setProgress_dev sys.up hatt k]
            simp [prependOff, List.append_assoc, List.dropLast]

/-- C4 counterexample: the server acknowledges offsets 5 and then 9 via
308 and then completes; the attached progress listener receives
exactly the sequence [5] — not [5, 9] as the claim states — because
each round signals the offset it *requested* rather than the offset
just acknowledged, so every acknowledgement is reported one round late
and the final one is swallowed by the completion round. -/
theorem c4_progress_cex :
    ((runLoop 3
      { up := (((mkUpload 20 ("ct")).setOnprogress).setOnerror).setOndone
        st := { fileSize := 20, chunkSize := 6, progress := 0 }
        reqs := []
        script := [{ status := 308, rangeHeader := some ("bytes 0-5") },
                   { status := 308, rangeHeader := some ("bytes 0-9") },
                   { status := 200, rangeHeader := none }] }
      JsOff.undef).up.devProgress).map Prod.snd = [5] ∧
    ¬ ((runLoop 3
      { up := (((mkUpload 20 ("ct")).setOnprogress).setOnerror).setOndone
        st := { fileSize := 20, chunkSize := 6, progress := 0 }
        reqs := []
        script := [{ status := 308, rangeHeader := some ("bytes 0-5") },
                   { status := 308, rangeHeader := some ("bytes 0-9") },
                   { status := 200, rangeHeader := none }] }
      JsOff.undef).up.devProgress).map Prod.snd = [5, 9] := by
  decide

/-- C4 amended: for a run whose remote service acknowledges chunks at
offsets o1 < o2 < … < on via 308 and then completes, the progress
signals delivered to the attached listener are exactly o1, …, o(n-1)
in that order — each acknowledged offset is signalled one round later,
and the last acknowledged offset is never signalled — and the
delivered sequence is still in non-decreasing offset order. -/
theorem c4_progress_shifted (os : List Nat) (resps : List HttpResp) (sys : Sys)
    (fin : HttpResp) (fuel : Nat)
    (hF2 : List.Forall₂ (fun r o => uploadChunkOutcome r
      = PutOutcome.gotOffset (JsOff.num o)) resps os)
    (hsorted : os.Chain' (· < ·))
    (hpos : ∀ o ∈ os, o ≠ 0)
    (hs : sys.script = resps ++ [fin])
    (hfin : uploadChunkOutcome fin = PutOutcome.completed)
    (hd : sys.up._done = false) (hc : sys.up._cancel = false)
    (hp : sys.up._pause = false)
    (hatt : sys.up.onprogressSet = true)
    (hdev : sys.up.devProgress = []) (hfuel : os.length < fuel) :
    (runLoop fuel sys JsOff.undef).up._done = true ∧
    ((runLoop fuel sys JsOff.undef).up.devProgress).map Prod.snd = os.dropLast ∧
    List.Chain' (· ≤ ·)
      (((runLoop fuel sys JsOff.undef).up.devProgress).map Prod.snd) := by
  obtain ⟨h1, h2⟩ := runLoop_acks os resps sys JsOff.undef fuel fin hF2 hpos hs hfin
    hd hc hp hatt (Or.inl rfl) hfuel
  have hmap : ((runLoop fuel sys JsOff.undef).up.devProgress).map Prod.snd
      = os.dropLast := by
    rw [h2, hdev]
    simp [prependOff]
  refine ⟨h1, hmap, ?_⟩
  rw [hmap]
  have hchain : os.dropLast.Chain' (· < ·) := by
    rw [List.dropLast_eq_take]
    exact hsorted.take _
  exact hchain.imp (fun a b hab => le_of_lt hab)

/-- C4 witness: the shifted-progress behaviour evaluated at the
acknowledgement sequence 5, 9 followed by completion. -/
theorem c4_progress_shifted_w :
    (runLoop 3
      { up := (((mkUpload 20 ("ct")).setOnprogress).setOnerror).setOndone
        st := { fileSize := 20, chunkSize := 6, progress := 0 }
        reqs := []
        script := [{ status := 308, rangeHeader := some ("bytes 0-5") },
                   { status := 308, rangeHeader := some ("bytes 0-9") },
                   { status := 200, rangeHeader := none }] }
      JsOff.undef).up._done = true :=
  (c4_progress_shifted [5, 9]
    [{ status := 308, rangeHeader := some ("bytes 0-5") },
     { status := 308, rangeHeader := some ("bytes 0-9") }]
    { up := (((mkUpload 20 ("ct")).setOnprogress).setOnerror).setOndone
      st := { fileSize := 20, chunkSize := 6, progress := 0 }
      reqs := []
      script := [{ status := 308, rangeHeader := some ("bytes 0-5") },
                 { status := 308, rangeHeader := some ("bytes 0-9") },
                 { status := 200, rangeHeader := none }] }
    { status := 200, rangeHeader := none } 3
    (List.Forall₂.cons (by decide)
      (List.Forall₂.cons (by decide) List.Forall₂.nil))
    (by norm_num [List.chain'_cons]) (by decide) rfl (by decide) rfl rfl rfl rfl rfl
    (by decide)).1

end GcsUploader
